import Mathlib

/-!
Verification of the ComfyExpressMiddleware concurrent job pipeline.

Each definition below is a shallow embedding of a function of the
JavaScript source; names follow the source where Lean allows it.
Timestamps are modelled as integers (milliseconds), JS numbers holding
counters as integers, and JS strings as Lean strings.
-/

namespace ComfyMW

/-! ## Health endpoint (src/routes/statusHandler.js, getSystemHealth) -/

/-- Inputs that determine the health verdict in getSystemHealth:
number of healthy instances, total instances, whether the job
processor is running, the parsed error-rate percentage and the total
job count from the metrics snapshot. -/
structure HealthInputs where
  healthyInstances : Nat
  totalInstances : Nat
  processorRunning : Bool
  errorRate : ℚ
  totalJobs : Nat
deriving Repr

/-- Result of the health computation: the `status` string placed in the
body and the HTTP status code of the response. -/
structure HealthVerdict where
  systemStatus : String
  statusCode : Nat
deriving Repr, DecidableEq

/-- Embedding of the non-exception path of getSystemHealth
(src/routes/statusHandler.js lines 39-118).  `systemStatus` starts as
"healthy" and `statusCode` as 200; the three checks below mutate
`systemStatus` exactly as the source does, and nothing in the source
ever reassigns `statusCode` before `res.status(statusCode)`. -/
def getSystemHealth (h : HealthInputs) : HealthVerdict :=
  let systemStatus := "healthy"
  let statusCode := 200
  -- Check instance health
  let systemStatus :=
    if h.healthyInstances = 0 then "critical"
    else if h.healthyInstances < h.totalInstances then "degraded"
    else systemStatus
  -- Check job processor
  let systemStatus := if !h.processorRunning then "critical" else systemStatus
  -- Check for high error rate (>20% in recent metrics)
  let systemStatus :=
    if h.errorRate > 20 ∧ h.totalJobs > 10 then
      (if systemStatus = "healthy" then "degraded" else systemStatus)
    else systemStatus
  { systemStatus := systemStatus, statusCode := statusCode }

/-! ## Job registry (src/server.js, class JobManager) -/

/-- The four job states of JobManager.JOB_STATES. -/
inductive JobState
  | pending
  | processing
  | completed
  | failed
deriving Repr, DecidableEq

/-- The string constant the source stores for each state. -/
def JobState.str : JobState → String
  | .pending => "pending"
  | .processing => "processing"
  | .completed => "completed"
  | .failed => "failed"

/-- Object.values(this.JOB_STATES) in registration order. -/
def jobStatesValues : List String :=
  ["pending", "processing", "completed", "failed"]

/-- Parse a status string known to be one of the four constants. -/
def parseJobState (s : String) : Option JobState :=
  if s = "pending" then some .pending
  else if s = "processing" then some .processing
  else if s = "completed" then some .completed
  else if s = "failed" then some .failed
  else none

/-- The mutable job record fields that updateJobStatus touches. -/
structure Job where
  id : String
  status : JobState
  updatedTime : Int
deriving Repr, DecidableEq

/-- The JobManager state relevant to updateJobStatus: the job map and
the cleanup reschedule request (in ms) produced by the call, if any. -/
structure JobManagerState where
  jobs : List Job
deriving Repr, DecidableEq

/-- Result of one updateJobStatus call: the boolean the function
returns, the new job map, and the cleanup delay rescheduled for the
job (30000 ms on a terminal status, none otherwise). -/
structure UpdateResult where
  ok : Bool
  jobs : List Job
  rescheduledCleanupMs : Option Int
deriving Repr, DecidableEq

/-- Embedding of JobManager.updateJobStatus (src/server.js lines
100-128).  It fails only when the job id is absent or the status
string is not one of the four JOB_STATES values; otherwise it
overwrites `status` and `updatedTime` unconditionally — the current
state of the job is never consulted. -/
def updateJobStatus (st : JobManagerState) (jobId : String) (status : String)
    (now : Int) : UpdateResult :=
  match st.jobs.find? (fun j => j.id = jobId) with
  | none => { ok := false, jobs := st.jobs, rescheduledCleanupMs := none }
  | some _ =>
    match parseJobState status with
    | none => { ok := false, jobs := st.jobs, rescheduledCleanupMs := none }
    | some newState =>
      let jobs := st.jobs.map (fun j =>
        if j.id = jobId then { j with status := newState, updatedTime := now } else j)
      let cleanup :=
        if newState = .completed ∨ newState = .failed then some (30000 : Int) else none
      { ok := true, jobs := jobs, rescheduledCleanupMs := cleanup }

/-! ## Load balancer (src/services/loadBalancer.js, class ComfyUILoadBalancer) -/

/-- One registered ComfyUI instance as the load balancer sees it: its
stable id, its host string, the health flag maintained by the health
checker, and the activeJobs counter (a JS number, so an integer here). -/
structure LBInstance where
  id : String
  host : String
  healthy : Bool
  activeJobs : Int
deriving Repr, DecidableEq

/-- The load balancer state: the registered instances in registration
order. -/
structure LBState where
  instances : List LBInstance
deriving Repr, DecidableEq

/-- Stable insertion of an instance into a list sorted ascending by
activeJobs; an element inserted earlier stays before equal elements,
matching the stable JS Array sort with comparator
(a, b) => a.activeJobs - b.activeJobs. -/
def insertByLoad (x : LBInstance) : List LBInstance → List LBInstance
  | [] => [x]
  | y :: ys =>
    if x.activeJobs ≤ y.activeJobs then x :: y :: ys else y :: insertByLoad x ys

/-- Stable ascending sort by activeJobs. -/
def sortByLoad (l : List LBInstance) : List LBInstance :=
  l.foldr insertByLoad []

/-- Embedding of ComfyUILoadBalancer.getAvailableInstance
(src/services/loadBalancer.js lines 50-85), the selection logic after
the initial health check has completed.  Healthy instances are sorted
ascending by activeJobs and the head is chosen; `gatePass` is the
outcome of healthChecker.checkBeforeJob on the chosen instance — when
it fails the source shifts the list and returns the next candidate
without re-running the gate.  No step consults a per-worker job cap. -/
def getAvailableInstance (s : LBState) (gatePass : Bool) : Option LBInstance :=
  match sortByLoad (s.instances.filter (fun i => i.healthy)) with
  | [] => none
  | i :: rest => if gatePass then some i else rest.head?

/-- Embedding of ComfyUILoadBalancer.incrementActiveJobs
(src/services/loadBalancer.js lines 105-111): the counter of the
first instance with the given host is incremented unconditionally. -/
def incrementActiveJobs (s : LBState) (host : String) : LBState :=
  { instances := s.instances.map (fun i =>
      if i.host = host then { i with activeJobs := i.activeJobs + 1 } else i) }

/-- Embedding of ComfyUILoadBalancer.decrementActiveJobs
(src/services/loadBalancer.js lines 117-123): decrement only when the
counter is positive. -/
def decrementActiveJobs (s : LBState) (host : String) : LBState :=
  { instances := s.instances.map (fun i =>
      if i.host = host ∧ i.activeJobs > 0 then { i with activeJobs := i.activeJobs - 1 }
      else i) }

/-- Embedding of InstanceHealthChecker's effect on the health flag
(checkInstanceHealth success sets healthy := true, markUnhealthy sets
healthy := false); the load balancer reads this flag through
getHealthyInstances. -/
def setInstanceHealth (s : LBState) (id : String) (h : Bool) : LBState :=
  { instances := s.instances.map (fun i =>
      if i.id = id then { i with healthy := h } else i) }

/-- One observable operation on the load balancer state, as exercised
by the synchronous execution path (comfyuiService.executeWorkflow):
selection immediately followed by incrementActiveJobs on the selected
host, a bare increment, a bare decrement, or a health-flag update. -/
inductive LBOp
  | selectIncrement (gatePass : Bool)
  | increment (host : String)
  | decrement (host : String)
  | setHealth (id : String) (h : Bool)
deriving Repr, DecidableEq

/-- Apply one operation to the load balancer state. -/
def lbStep (s : LBState) : LBOp → LBState
  | .selectIncrement gatePass =>
    match getAvailableInstance s gatePass with
    | some i => incrementActiveJobs s i.host
    | none => s
  | .increment host => incrementActiveJobs s host
  | .decrement host => decrementActiveJobs s host
  | .setHealth id h => setInstanceHealth s id h

/-- Apply a sequence of operations. -/
def lbRun (s : LBState) (ops : List LBOp) : LBState :=
  ops.foldl lbStep s

/-- The ComfyUILoadBalancer constructor registers the two instances
with activeJobs = 0; the health checker registers them with
healthy = false. -/
def lbInit : LBState :=
  { instances :=
      [ { id := "instance-1", host := "192.168.1.19:8188", healthy := false, activeJobs := 0 }
      , { id := "instance-2", host := "192.168.1.19:8189", healthy := false, activeJobs := 0 } ] }

/-- MAX_JOBS_PER_INSTANCE default in src/services/loadBalancer.js
(JobProcessor constructor): 2.  The ComfyUILoadBalancer itself never
reads it. -/
def maxJobsPerInstance : Int := 2

/-! ## Error classification and execution timeout
(src/services/loadBalancer.js, class JobProcessor) -/

/-- A JS Error as the job processor inspects it: the optional `code`
property and the message string. -/
structure JSError where
  code : Option String
  message : String
deriving Repr, DecidableEq

/-- Whether the first character list starts the second one. -/
def charsStartWith : List Char → List Char → Bool
  | [], _ => true
  | _ :: _, [] => false
  | p :: ps, c :: cs => p = c && charsStartWith ps cs

/-- Whether the first character list occurs inside the second one. -/
def charsIncludes (pat : List Char) : List Char → Bool
  | [] => pat.isEmpty
  | c :: rest => charsStartWith pat (c :: rest) || charsIncludes pat rest

/-- JavaScript String.prototype.includes on the character sequences. -/
def strIncludes (s pat : String) : Bool :=
  charsIncludes pat.toList s.toList

/-- The instanceErrorCodes list of JobProcessor.isInstanceError. -/
def instanceErrorCodes : List String :=
  ["ECONNREFUSED", "ETIMEDOUT", "ENOTFOUND", "ECONNRESET"]

/-- Embedding of JobProcessor.isInstanceError
(src/services/loadBalancer.js lines 747-753). -/
def isInstanceError (e : JSError) : Bool :=
  (match e.code with
   | some c => instanceErrorCodes.contains c
   | none => false)
  || strIncludes e.message "connection"
  || strIncludes e.message "timeout"
  || strIncludes e.message "WebSocket"

/-- The error constructed by the 60-second execution timeout in
JobProcessor.executeWorkflowOnInstance (src/services/loadBalancer.js
lines 604-609): new Error with no `code` property. -/
def workflowTimeoutError : JSError :=
  { code := none, message := "Workflow execution timed out" }

/-- What the asynchronous pipeline does when executeWorkflowOnInstance
rejects with error `e`: executeJobWorkflow's catch calls
loadBalancer.markUnhealthy(instance.host) iff isInstanceError e, then
rethrows; startJobProcessing's catch then sets the job to failed with
e.message. -/
structure FailureOutcome where
  jobFailed : Bool
  jobError : String
  markedUnhealthy : Bool
deriving Repr, DecidableEq

/-- Embedding of the failure path executeJobWorkflow →
startJobProcessing (src/services/loadBalancer.js lines 398-513). -/
def asyncFailureOutcome (e : JSError) : FailureOutcome :=
  { jobFailed := true
  , jobError := e.message
  , markedUnhealthy := isInstanceError e }

/-! ## WebSocket message handling (src/services/comfyuiService.js and
src/services/loadBalancer.js) -/

/-- The textual stream messages the two message handlers distinguish.
Fields mirror the message.data fields each branch reads; `binaryFrame`
stands for a frame whose JSON.parse fails. -/
inductive WsMessage
  | executing (promptId : Option String) (node : Option String)
  | statusMsg (queueRemaining : Option Int)
  | executionError (promptId : Option String)
  | executionCached (promptId : Option String) (nodes : List String)
  | executedMsg (promptId : Option String) (node : Option String)
  | binaryFrame
  | otherMsg
deriving Repr, DecidableEq

/-- Observable effect of one message on the job-processor handler in
JobProcessor.executeWorkflowOnInstance (src/services/loadBalancer.js
lines 611-658). -/
inductive JPAction
  | fetchResults
  | rejectExecutionError
  | ignore
deriving Repr, DecidableEq

/-- Embedding of the job-processor message handler: given the
submitted prompt id and the executionCompleted flag, returns the
action taken and the new executionCompleted flag.  The
execution_error branch rejects whenever message.data is present — it
never compares the message's prompt_id with ours. -/
def jpMessageHandler (promptId : String) (executionCompleted : Bool)
    (m : WsMessage) : JPAction × Bool :=
  match m with
  | .executing pid node =>
    if pid = some promptId ∧ node = none then (.fetchResults, true)
    else (.ignore, executionCompleted)
  | .statusMsg q =>
    if q = some 0 ∧ !executionCompleted then (.fetchResults, true)
    else (.ignore, executionCompleted)
  | .executionError _ => (.rejectExecutionError, executionCompleted)
  | _ => (.ignore, executionCompleted)

/-- Observable effects of one message on the synchronous handler in
executeWorkflow (src/services/comfyuiService.js lines 199-296).
`timeoutCleared` records a clearTimeout(timeoutId) call, `rejected`
a rejectWithCleanup call, `fetchTriggered` a fetchResultsHandler call
that fetches results, and `refErrorThrown` that the branch aborted
with a ReferenceError. -/
structure SyncHandlerEffect where
  executionCompleted : Bool
  timeoutCleared : Bool
  rejected : Bool
  fetchTriggered : Bool
  refErrorThrown : Bool
deriving Repr, DecidableEq

/-- Embedding of the synchronous executeWorkflow message handler.
The identifier `ws` used at the two `ws.close()` sites (lines 231 and
257) is not declared anywhere in src/services/comfyuiService.js — the
file acquires a pooledConnection instead — so evaluating it throws a
ReferenceError which the handler's own catch (parseError) swallows.
Statements before `ws.close()` in a branch take effect; statements
after it are never reached.  In the execution_error branch
(lines 254-262) clearTimeout runs first, then `ws.close()` throws, so
the rejectWithCleanup call below it is dead code. -/
def syncMessageHandler (promptId : String) (resolved executionCompleted : Bool)
    (m : WsMessage) : SyncHandlerEffect :=
  let noEffect : SyncHandlerEffect :=
    { executionCompleted := executionCompleted, timeoutCleared := false
    , rejected := false, fetchTriggered := false, refErrorThrown := false }
  match m with
  | .executing pid node =>
    if pid = some promptId then
      if node = none then
        -- sets executionCompleted, then ws.close() throws
        { noEffect with executionCompleted := true, refErrorThrown := true }
      else noEffect
    else noEffect
  | .executionError _ =>
    -- clearTimeout(timeoutId); then ws.close() throws before rejectWithCleanup
    { noEffect with timeoutCleared := true, refErrorThrown := true }
  | .statusMsg q =>
    if q = some 0 then
      if !resolved ∧ !executionCompleted then
        { noEffect with
            executionCompleted := true
            timeoutCleared := true
            fetchTriggered := true }
      else noEffect
    else noEffect
  | _ => noEffect

/-! ## Prompt submission (src/services/comfyuiService.js lines 90-124
and src/services/loadBalancer.js lines 564-573) -/

/-- The JSON body the worker's /prompt endpoint answers with, as far
as the source reads it: the prompt id and the node_errors mapping. -/
structure PromptResponse where
  prompt_id : String
  node_errors : List (String × String)
deriving Repr, DecidableEq

/-- Outcome of the submission step: proceed to stream monitoring with
the parsed prompt id, or fail the job with an error message. -/
inductive SubmitOutcome
  | proceed (promptId : String)
  | failJob (error : String)
deriving Repr, DecidableEq

/-- Embedding of the prompt-submission step shared by
executeWorkflow (src/services/comfyuiService.js lines 90-124) and
JobProcessor.executeWorkflowOnInstance (src/services/loadBalancer.js
lines 564-573): if the POST resolves, the code reads
response.data.prompt_id and continues to stream monitoring; the
node_errors field of the response is never inspected anywhere.  If
the POST rejects, the job is failed with the error's message. -/
def submitPrompt (r : Except JSError PromptResponse) : SubmitOutcome :=
  match r with
  | .ok resp => .proceed resp.prompt_id
  | .error e => .failJob e.message

/-! ## Circuit breaker (src/unnamed/part_002, class CircuitBreaker) -/

/-- The STATES constant of the circuit breaker module. -/
inductive CBState
  | CLOSED
  | OPEN
  | HALF_OPEN
deriving Repr, DecidableEq

/-- The circuit-breaker fields read or written by canRequest, open and
close.  All timeouts are in milliseconds. -/
structure CircuitBreaker where
  state : CBState
  failures : Int
  successes : Int
  nextAttempt : Int
  currentResetTimeout : Nat
deriving Repr, DecidableEq

/-- Constructor default: resetTimeout = 15000 ms. -/
def cbResetTimeout : Nat := 15000

/-- Constructor default: maxResetTimeout = 120000 ms. -/
def cbMaxResetTimeout : Nat := 120000

/-- The CircuitBreaker constructor with default options (src/unnamed/
part_002 lines 419-459): state CLOSED, nextAttempt = now,
currentResetTimeout = resetTimeout. -/
def CircuitBreaker.init (now : Int) : CircuitBreaker :=
  { state := .CLOSED
  , failures := 0
  , successes := 0
  , nextAttempt := now
  , currentResetTimeout := cbResetTimeout }

/-- Embedding of CircuitBreaker.canRequest (src/unnamed/part_002 lines
495-515): returns whether the request is admitted together with the
(possibly mutated) breaker.  CLOSED always admits; OPEN admits — and
flips the state to HALF_OPEN — once now has reached nextAttempt;
HALF_OPEN always admits and mutates nothing. -/
def CircuitBreaker.canRequest (cb : CircuitBreaker) (now : Int) :
    Bool × CircuitBreaker :=
  match cb.state with
  | .CLOSED => (true, cb)
  | .OPEN =>
    if now ≥ cb.nextAttempt then (true, { cb with state := .HALF_OPEN })
    else (false, cb)
  | .HALF_OPEN => (true, cb)

/-- Math.ceil (n * 1.5) for a natural n: the least integer at or above
3·n/2, computed here as (3·n + 1) / 2 in natural division. -/
def ceilTimes3Div2 (n : Nat) : Nat := (3 * n + 1) / 2

/-- Embedding of CircuitBreaker.open (src/unnamed/part_002 lines
664-691): state := OPEN, successes := 0, nextAttempt := now +
currentResetTimeout, and then currentResetTimeout :=
min(Math.ceil(currentResetTimeout * 1.5), maxResetTimeout). -/
def CircuitBreaker.openBreaker (cb : CircuitBreaker) (now : Int) : CircuitBreaker :=
  { cb with
      state := .OPEN
      successes := 0
      nextAttempt := now + (cb.currentResetTimeout : Int)
      currentResetTimeout := min (ceilTimes3Div2 cb.currentResetTimeout) cbMaxResetTimeout }

/-- Embedding of CircuitBreaker.close (src/unnamed/part_002 lines
696-709): state := CLOSED, counters cleared, currentResetTimeout :=
resetTimeout. -/
def CircuitBreaker.closeBreaker (cb : CircuitBreaker) : CircuitBreaker :=
  { cb with
      state := .CLOSED
      failures := 0
      successes := 0
      currentResetTimeout := cbResetTimeout }

/-! ## Pre-dispatch health gate (src/services/healthChecker.js,
InstanceHealthChecker.checkBeforeJob) -/

/-- The per-instance health record fields checkBeforeJob reads:
the cached healthy flag and the timestamp of the last health check
(null until the first check runs). -/
structure HCInstance where
  healthy : Bool
  lastHealthCheck : Option Int
deriving Repr, DecidableEq

/-- What one checkBeforeJob call does before any network traffic. -/
inductive BeforeJobDecision
  | notFoundFalse
  | cachedTrue
  | freshProbe
deriving Repr, DecidableEq

/-- Embedding of InstanceHealthChecker.checkBeforeJob
(src/services/healthChecker.js lines 221-234): an unregistered id
yields false without a probe; a healthy instance whose last check is
strictly less than 5000 ms old is trusted from cache without a probe;
every other case performs a fresh checkInstanceHealth probe. -/
def checkBeforeJob (inst : Option HCInstance) (now : Int) : BeforeJobDecision :=
  match inst with
  | none => .notFoundFalse
  | some i =>
    let fresh : Bool :=
      match i.lastHealthCheck with
      | some t => now - t < 5000
      | none => false
    if i.healthy && fresh then .cachedTrue else .freshProbe

/-! ## Format parameter handling
(src/routes/removeBackgroundHandler.js, handleRemoveBackground lines
39-48; the async handler lines 119-128 is field-for-field the same) -/

/-- JavaScript a || b || default over optional form/query strings:
the empty string is falsy, any other string truthy. -/
def firstTruthy : List (Option String) → String → String
  | [], d => d
  | some s :: rest, d => if s = "" then firstTruthy rest d else s
  | none :: rest, d => firstTruthy rest d

/-- JavaScript String.prototype.toUpperCase restricted to the ASCII
range, which covers every format value the handler compares against. -/
def jsToUpper (s : String) : String := String.mk (s.data.map Char.toUpper)

/-- The validFormats list of the handlers. -/
def validFormats : List String := ["PNG", "JPEG", "WEBP"]

/-- Outcome of the format-validation step: a 400 response before any
job is created, or continuation with the normalized format (the sync
handler then runs executeWorkflow, the async handler calls addJob). -/
inductive FormatCheck
  | rejected400
  | acceptedJob (format : String)
deriving Repr, DecidableEq

/-- Embedding of the format extraction and validation shared by
handleRemoveBackground and handleRemoveBackgroundAsync:
format := (req.body.format || req.query.format || 'PNG').toUpperCase()
followed by membership in validFormats; failure returns 400 before
any job is created. -/
def validateFormat (bodyFormat queryFormat : Option String) : FormatCheck :=
  let format := jsToUpper (firstTruthy [bodyFormat, queryFormat] "PNG")
  if validFormats.contains format then .acceptedJob format else .rejected400

/-! # Theorems -/

/-- C1: claimed — GET /health responds 200 if at least one worker is
healthy and the job processor is running, and 503 otherwise.  The
code computes the verdict string but never reassigns statusCode, so
the non-exception path of getSystemHealth answers 200 even with zero
healthy workers and a stopped processor (its own doc comment promises
"Returns 200 for healthy, 503 for degraded system").  This theorem
evaluates the failing input: zero healthy instances of two and a
stopped processor yield systemStatus "critical" with HTTP 200, and in
general every input yields HTTP 200. -/
theorem health_statusCode_always_200 :
    getSystemHealth
      { healthyInstances := 0
        totalInstances := 2
        processorRunning := false
        errorRate := 0
        totalJobs := 0 } =
      { systemStatus := "critical", statusCode := 200 } ∧
    ∀ h : HealthInputs, (getSystemHealth h).statusCode = 200 := by
  exact ⟨rfl, fun _ => rfl⟩

/-- C6 counterexample: a resolved POST /prompt response carrying a
non-empty node_errors mapping does not fail the job — submission
proceeds to stream monitoring with the parsed prompt id. -/
theorem submitPrompt_nonempty_node_errors_proceeds :
    submitPrompt
      (.ok { prompt_id := "p1"
             node_errors := [("7", "Required input is missing")] }) = .proceed "p1" := rfl

/-- C6 amended: the submission step never inspects node_errors.
Whenever the POST resolves the code reads prompt_id and proceeds to
stream monitoring, whatever the node_errors mapping holds; the job is
failed at the submission step only when the POST itself rejects, and
then with the transport error's message, not a validation error. -/
theorem submitPrompt_ignores_node_errors (resp : PromptResponse) (e : JSError) :
    submitPrompt (.ok resp) = .proceed resp.prompt_id ∧
    submitPrompt (.error e) = .failJob e.message :=
  ⟨rfl, rfl⟩

/-- C4: claimed — exceeding execution_timeout fails the job with a
timeout error and marks the worker unhealthy.  The job is indeed
failed, but the timeout error constructed at the 60 s ceiling carries
the message "Workflow execution timed out" and no code, and
isInstanceError matches the substrings "connection", "timeout" and
"WebSocket" — none of which occurs in "timed out" — so markUnhealthy
is never invoked, although the classifier clearly intends to catch
timeouts (it accepts the code ETIMEDOUT and the substring "timeout").
This theorem evaluates the failing input. -/
theorem execution_timeout_not_marked_unhealthy :
    asyncFailureOutcome workflowTimeoutError =
      { jobFailed := true, jobError := "Workflow execution timed out",
        markedUnhealthy := false } ∧
    isInstanceError { code := some "ETIMEDOUT", message := "connect ETIMEDOUT" } = true ∧
    isInstanceError { code := none, message := "request timeout" } = true := by
  refine ⟨?_, ?_, ?_⟩ <;> decide

/-- C5: claimed — an execution_error stream message whose prompt_id
matches the submission id rejects the promise and fails the job in
both execution paths.  The asynchronous job-processor handler does
reject.  The synchronous executeWorkflow handler's execution_error
branch first clears the execution timeout and then evaluates
ws.close() — but no variable `ws` is declared anywhere in
src/services/comfyuiService.js, so a ReferenceError aborts the branch
before the rejectWithCleanup call below it and is swallowed by the
handler's own catch: the promise is never rejected and the job is
left in processing with its timeout cancelled.  This theorem
evaluates the failing input on both handlers. -/
theorem sync_execution_error_never_rejects :
    jpMessageHandler "abc" false (.executionError (some "abc")) =
      (.rejectExecutionError, false) ∧
    syncMessageHandler "abc" false false (.executionError (some "abc")) =
      { executionCompleted := false, timeoutCleared := true, rejected := false,
        fetchTriggered := false, refErrorThrown := true } := by
  exact ⟨rfl, rfl⟩

/-- C7 counterexample: a breaker sitting in HALF_OPEN admits two
consecutive canRequest calls with no success or failure recorded in
between — the second request arriving while the first probe is still
in flight is not rejected. -/
theorem halfOpen_admits_two_requests :
    (CircuitBreaker.canRequest
      { state := .HALF_OPEN
        failures := 0
        successes := 1
        nextAttempt := 1000
        currentResetTimeout := 22500 } 2000).1 = true ∧
    ((CircuitBreaker.canRequest
      { state := .HALF_OPEN
        failures := 0
        successes := 1
        nextAttempt := 1000
        currentResetTimeout := 22500 } 2000).2.canRequest 2001).1 = true := by
  exact ⟨rfl, rfl⟩

/-- C7 amended: while the breaker is in HALF_OPEN, canRequest admits
every request and leaves the breaker unchanged; admission is not
limited to one in-flight probe at a time (the state only leaves
HALF_OPEN when a success or failure is recorded). -/
theorem canRequest_halfOpen_always_admits (cb : CircuitBreaker) (now : Int) :
    CircuitBreaker.canRequest { cb with state := .HALF_OPEN } now =
      (true, { cb with state := .HALF_OPEN }) :=
  rfl

/-- C2 counterexample: a job sitting in the terminal state completed
is moved back to pending by updateJobStatus, which reports success —
the claim says such a request is rejected and leaves the state
unchanged. -/
theorem updateJobStatus_allows_completed_to_pending :
    updateJobStatus { jobs := [{ id := "j1", status := .completed, updatedTime := 5 }] }
        "j1" "pending" 10 =
      { ok := true
        jobs := [{ id := "j1", status := .pending, updatedTime := 10 }]
        rescheduledCleanupMs := none } := by
  decide

/-- C2 amended: updateJobStatus validates only that the job exists and
that the requested status string is one of the four JOB_STATES
values; it never consults the job's current state, so every
transition between valid states — including completed→pending and
failed→processing — is performed.  A status string outside the four
values is rejected and leaves the job map unchanged. -/
theorem updateJobStatus_any_valid_transition (cur s : JobState) (id : String)
    (t now : Int) :
    updateJobStatus { jobs := [{ id := id, status := cur, updatedTime := t }] }
        id s.str now =
      { ok := true
        jobs := [{ id := id, status := s, updatedTime := now }]
        rescheduledCleanupMs :=
          if s = .completed ∨ s = .failed then some 30000 else none } ∧
    ∀ str : String,
      (updateJobStatus { jobs := [{ id := id, status := cur, updatedTime := t }] }
          id str now).ok = (parseJobState str).isSome := by
  constructor
  · cases s <;> simp [updateJobStatus, parseJobState, JobState.str, List.find?]
  · intro str
    cases h : parseJobState str <;>
      simp [updateJobStatus, List.find?, h]

/-- C3 counterexample: the per-worker cap (maxJobsPerInstance = 2) is
not respected by the load-balancer counters.  After marking
instance-1 healthy and running the synchronous selection-and-
increment step three times, its activeJobs counter reaches 3 > 2;
moreover the third selection returned the instance although its
counter already equalled the cap, instead of discarding it. -/
theorem lb_active_jobs_exceed_cap :
    (∃ i ∈ (lbRun lbInit
        [.setHealth "instance-1" true, .selectIncrement true,
         .selectIncrement true, .selectIncrement true]).instances,
      maxJobsPerInstance < i.activeJobs) ∧
    (getAvailableInstance (lbRun lbInit
        [.setHealth "instance-1" true, .selectIncrement true,
         .selectIncrement true]) true).map LBInstance.activeJobs
      = some maxJobsPerInstance := by
  constructor
  · decide
  · decide

/-- Incrementing preserves non-negative counters. -/
theorem incrementActiveJobs_nonneg {s : LBState}
    (h : ∀ i ∈ s.instances, 0 ≤ i.activeJobs) (host : String) :
    ∀ i ∈ (incrementActiveJobs s host).instances, 0 ≤ i.activeJobs := by
  intro i hi
  simp only [incrementActiveJobs, List.mem_map] at hi
  rcases hi with ⟨j, hj, rfl⟩
  have hja := h j hj
  by_cases hc : j.host = host <;> simp [hc] <;> omega

/-- Decrementing is guarded by activeJobs > 0 and so preserves
non-negative counters. -/
theorem decrementActiveJobs_nonneg {s : LBState}
    (h : ∀ i ∈ s.instances, 0 ≤ i.activeJobs) (host : String) :
    ∀ i ∈ (decrementActiveJobs s host).instances, 0 ≤ i.activeJobs := by
  intro i hi
  simp only [decrementActiveJobs, List.mem_map] at hi
  rcases hi with ⟨j, hj, rfl⟩
  have hja := h j hj
  by_cases hc : j.host = host ∧ j.activeJobs > 0 <;> simp [hc] <;> omega

/-- Health-flag updates do not touch the counters. -/
theorem setInstanceHealth_nonneg {s : LBState}
    (h : ∀ i ∈ s.instances, 0 ≤ i.activeJobs) (id : String) (b : Bool) :
    ∀ i ∈ (setInstanceHealth s id b).instances, 0 ≤ i.activeJobs := by
  intro i hi
  simp only [setInstanceHealth, List.mem_map] at hi
  rcases hi with ⟨j, hj, rfl⟩
  have hja := h j hj
  by_cases hc : j.id = id <;> simp [hc] <;> omega

/-- Every single load-balancer operation preserves non-negative
counters. -/
theorem lbStep_nonneg {s : LBState}
    (h : ∀ i ∈ s.instances, 0 ≤ i.activeJobs) (op : LBOp) :
    ∀ i ∈ (lbStep s op).instances, 0 ≤ i.activeJobs := by
  cases op with
  | selectIncrement g =>
    unfold lbStep
    rcases hx : getAvailableInstance s g with _ | inst
    · simpa [hx] using h
    · simpa [hx] using incrementActiveJobs_nonneg h inst.host
  | increment host => exact incrementActiveJobs_nonneg h host
  | decrement host => exact decrementActiveJobs_nonneg h host
  | setHealth id b => exact setInstanceHealth_nonneg h id b

/-- Runs of operations preserve non-negative counters. -/
theorem lbRun_nonneg {s : LBState}
    (h : ∀ i ∈ s.instances, 0 ≤ i.activeJobs) (ops : List LBOp) :
    ∀ i ∈ (lbRun s ops).instances, 0 ≤ i.activeJobs := by
  induction ops generalizing s with
  | nil => exact h
  | cons op rest ih => exact ih (lbStep_nonneg h op)

/-- C3 amended: the load balancer's selection filters only by health;
neither getAvailableInstance nor incrementActiveJobs consults a
per-worker cap, so the counters can exceed max_jobs_per_worker (see
the counterexample).  What does hold at every point of any sequence
of selection / increment / decrement / health operations is the lower
bound: every instance's activeJobs counter stays ≥ 0, because
decrementActiveJobs is guarded by activeJobs > 0. -/
theorem lb_active_jobs_nonneg (ops : List LBOp) :
    ∀ i ∈ (lbRun lbInit ops).instances, 0 ≤ i.activeJobs :=
  lbRun_nonneg (by decide) ops

/-- Witness for C3's amended theorem: instance-1 of the initial state
after the empty run, with its membership hypothesis discharged
concretely. -/
theorem lb_active_jobs_nonneg_witness :
    ({ id := "instance-1"
       host := "192.168.1.19:8188"
       healthy := false
       activeJobs := 0 } : LBInstance) ∈ (lbRun lbInit []).instances ∧
    0 ≤ ({ id := "instance-1"
           host := "192.168.1.19:8188"
           healthy := false
           activeJobs := 0 } : LBInstance).activeJobs :=
  ⟨by decide, lb_active_jobs_nonneg [] _ (by decide)⟩

/-- C8 counterexample: an instance whose successful probe is 3 seconds
old — older than the claimed 2-second freshness rule — is still
trusted from cache by checkBeforeJob without a new probe. -/
theorem checkBeforeJob_trusts_3s_old_cache :
    checkBeforeJob (some { healthy := true, lastHealthCheck := some 7000 }) 10000
      = .cachedTrue ∧
    ¬((10000 : Int) - 7000 < 2000) := by
  exact ⟨rfl, by decide⟩

/-- C8 amended: checkBeforeJob trusts the cache exactly when the
instance is registered, its cached state is healthy, and the last
probe is strictly less than 5000 ms old (not 2 s as claimed); in
every other case for a registered instance it performs a fresh probe,
and an unregistered id yields false without a probe. -/
theorem checkBeforeJob_freshness_window (i : HCInstance) (now : Int) :
    (checkBeforeJob (some i) now = .cachedTrue ↔
      i.healthy = true ∧ ∃ t, i.lastHealthCheck = some t ∧ now - t < 5000) ∧
    (checkBeforeJob (some i) now = .cachedTrue ∨
      checkBeforeJob (some i) now = .freshProbe) ∧
    checkBeforeJob none now = .notFoundFalse := by
  refine ⟨?_, ?_, rfl⟩
  · cases hI : i.lastHealthCheck with
    | none => cases hH : i.healthy <;> simp [checkBeforeJob, hI, hH]
    | some t =>
      cases hH : i.healthy <;> by_cases hlt : now - t < 5000 <;>
        simp [checkBeforeJob, hI, hH, hlt]
  · rcases hI : i.lastHealthCheck with _ | t
    · cases hH : i.healthy <;> simp [checkBeforeJob, hI, hH]
    · cases hH : i.healthy <;> by_cases hlt : now - t < 5000 <;>
        simp [checkBeforeJob, hI, hH, hlt]

/-- Math.ceil (n · 1.5) agrees with the rational ceiling of 3·n/2. -/
theorem ceilTimes3Div2_eq_ceil (n : ℕ) :
    ceilTimes3Div2 n = ⌈(3 * (n : ℚ)) / 2⌉₊ := by
  rcases Nat.even_or_odd n with ⟨k, hk⟩ | ⟨k, hk⟩
  · subst hk
    have hq : (3 * ((k + k : ℕ) : ℚ)) / 2 = ((3 * k : ℕ) : ℚ) := by
      push_cast; ring
    rw [hq, Nat.ceil_natCast]
    unfold ceilTimes3Div2
    omega
  · subst hk
    have hL : ceilTimes3Div2 (2 * k + 1) = 3 * k + 2 := by
      unfold ceilTimes3Div2; omega
    rw [hL]
    symm
    rw [Nat.ceil_eq_iff (by omega)]
    constructor
    · push_cast; linarith
    · push_cast; linarith

/-- C9: the breaker's currentResetTimeout starts at 15000 ms; each
open sets nextAttempt to now + currentResetTimeout and then replaces
currentResetTimeout by its multiple by 1.5 — rounded up to an integer
by Math.ceil — capped at 120000 ms; close resets it to 15000 ms. -/
theorem reset_timeout_schedule (cb : CircuitBreaker) (now t : Int) :
    (CircuitBreaker.init t).currentResetTimeout = 15000 ∧
    (cb.openBreaker now).nextAttempt = now + (cb.currentResetTimeout : Int) ∧
    (cb.openBreaker now).currentResetTimeout
      = min ⌈(3 * ((cb.currentResetTimeout : ℕ) : ℚ)) / 2⌉₊ 120000 ∧
    (cb.openBreaker now).currentResetTimeout ≤ 120000 ∧
    cb.closeBreaker.currentResetTimeout = 15000 := by
  refine ⟨rfl, rfl, ?_, ?_, rfl⟩
  · show min (ceilTimes3Div2 cb.currentResetTimeout) cbMaxResetTimeout = _
    rw [ceilTimes3Div2_eq_ceil]
    rfl
  · exact min_le_right _ _

/-- C10 counterexample: a request whose format field is present but
empty is accepted (the empty string is falsy in JavaScript, so the
default PNG replaces it before validation) although the uppercasing
of the provided value is not among the valid formats — the claim says
any such value is rejected with 400 and no job created. -/
theorem empty_format_accepted :
    validateFormat (some "") none = .acceptedJob "PNG" ∧
    validFormats.contains (jsToUpper "") = false := by
  exact ⟨rfl, rfl⟩

/-- C10 amended: a missing or empty format defaults to PNG; any
non-empty provided value is uppercased and then validated, so
lowercase or mixed-case spellings of PNG/JPEG/WEBP are accepted as
their uppercase forms and every non-empty value whose uppercasing is
outside the set is rejected with 400 before any job is created. -/
theorem format_uppercased_then_validated (s : String) (q : Option String)
    (h : s ≠ "") :
    validateFormat (some s) q =
      (if validFormats.contains (jsToUpper s) then .acceptedJob (jsToUpper s)
       else .rejected400) ∧
    validateFormat none none = .acceptedJob "PNG" ∧
    validateFormat (some "png") none = .acceptedJob "PNG" ∧
    validateFormat (some "Jpeg") none = .acceptedJob "JPEG" ∧
    validateFormat (some "GIF") none = .rejected400 := by
  refine ⟨?_, rfl, by decide, by decide, by decide⟩
  unfold validateFormat firstTruthy
  simp [h]

/-- Witness for C10's amended theorem at the non-empty value webp. -/
theorem format_uppercased_then_validated_witness :
    "webp" ≠ "" ∧
    validateFormat (some "webp") none =
      (if validFormats.contains (jsToUpper "webp") then .acceptedJob (jsToUpper "webp")
       else .rejected400) :=
  ⟨by decide, (format_uppercased_then_validated "webp" none (by decide)).1⟩

end ComfyMW
